import Mathlib

/-!
Shallow embedding of the rclrs / rosidl_runtime_rs core
(src/rclrs/src/context.rs, node/mod.rs, node/publisher.rs, node/subscription.rs,
src/rclrs/src/qos.rs, src/rosidl_runtime_rs/src/string.rs), together with
theorems settling the specification claims about it.
-/

namespace Rclrs

/-- Modelled from the spec: the error module of rclrs (to_rcl_result, RclReturnCode
and the ToResult trait live in an error.rs that is not under src; only its callers
and their doc comments are). Status codes the native rcl calls can report, as
enumerated by the doc comments in context.rs, node/mod.rs, publisher.rs and
subscription.rs. -/
inductive RclStatus
  | ok
  | error
  | invalidArgument
  | badAlloc
  | alreadyInit
  | nodeInvalid
  | nodeInvalidName
  | nodeInvalidNamespace
  | topicNameInvalid
  | publisherInvalid
  | subscriptionInvalid
  | subscriptionTakeFailed
deriving DecidableEq, Repr

/-- Modelled from the spec: RclErrorCode variants named in the source doc comments. -/
inductive RclErrorCode
  | error
  | alreadyInit
  | topicNameInvalid
  | publisherInvalid
deriving DecidableEq, Repr

/-- Modelled from the spec: NodeErrorCode variants named in the source doc comments. -/
inductive NodeErrorCode
  | nodeInvalid
  | nodeInvalidName
  | nodeInvalidNamespace
deriving DecidableEq, Repr

/-- Modelled from the spec: SubscriberErrorCode variants named in the source doc
comments of subscription.rs. -/
inductive SubscriberErrorCode
  | subscriptionInvalid
  | subscriptionTakeFailed
deriving DecidableEq, Repr

/-- Modelled from the spec: the RclReturnCode error enum of the missing error.rs,
with the variant shapes used throughout the source doc comments
(InvalidArgument, BadAlloc, RclError(..), NodeError(..), SubscriberError(..)). -/
inductive RclReturnCode
  | invalidArgument
  | badAlloc
  | rclError (c : RclErrorCode)
  | nodeError (c : NodeErrorCode)
  | subscriberError (c : SubscriberErrorCode)
deriving DecidableEq, Repr

/-- Modelled from the spec: to_rcl_result of the missing error.rs, mapping each
native status code to Ok or to the distinct RclReturnCode variant that the source
doc comments associate with that condition. -/
def toRclResult : RclStatus → Except RclReturnCode Unit
  | .ok => .ok ()
  | .error => .error (.rclError .error)
  | .invalidArgument => .error .invalidArgument
  | .badAlloc => .error .badAlloc
  | .alreadyInit => .error (.rclError .alreadyInit)
  | .nodeInvalid => .error (.nodeError .nodeInvalid)
  | .nodeInvalidName => .error (.nodeError .nodeInvalidName)
  | .nodeInvalidNamespace => .error (.nodeError .nodeInvalidNamespace)
  | .topicNameInvalid => .error (.rclError .topicNameInvalid)
  | .publisherInvalid => .error (.rclError .publisherInvalid)
  | .subscriptionInvalid => .error (.subscriberError .subscriptionInvalid)
  | .subscriptionTakeFailed => .error (.subscriberError .subscriptionTakeFailed)

/-- Observable events of one take or publish call against the message capability
and the native layer, in the order the source performs them. -/
inductive MsgEvent
  | getNativeMessage
  | rclTake
  | rclPublish
  | readHandle
  | destroyNativeMessage
  | callbackInvoked
deriving DecidableEq, Repr

/-- SubscriptionBase::take (subscription.rs lines 91-118): locks the handle,
obtains the native message, calls rcl_take, and matches on to_rcl_result:
Ok maps to Ok(true) after read_handle, SubscriptionTakeFailed maps to Ok(false),
any other error is propagated; destroy_native_message runs on every path before
returning. The native take outcome is the parameter; the value is the returned
Result together with the trace of events. -/
def subscriptionBaseTake (st : RclStatus) :
    Except RclReturnCode Bool × List MsgEvent :=
  match toRclResult st with
  | .ok () =>
      (.ok true, [.getNativeMessage, .rclTake, .readHandle, .destroyNativeMessage])
  | .error (.subscriberError .subscriptionTakeFailed) =>
      (.ok false, [.getNativeMessage, .rclTake, .destroyNativeMessage])
  | .error e =>
      (.error e, [.getNativeMessage, .rclTake, .destroyNativeMessage])

/-- Subscription::take, the typed form (subscription.rs lines 217-231): locks the
handle, obtains the native message, calls rcl_take, then unconditionally calls
read_handle and destroy_native_message, and returns ret.ok() with the error
mapped through into; there is no special case for SubscriptionTakeFailed. -/
def subscriptionTake (st : RclStatus) :
    Except RclReturnCode Unit × List MsgEvent :=
  (toRclResult st, [.getNativeMessage, .rclTake, .readHandle, .destroyNativeMessage])

/-- Publisher::publish (publisher.rs lines 148-160): obtains the native message,
locks its own handle, calls rcl_publish, then unconditionally calls
destroy_native_message on the native representation, and returns ret.ok(). -/
def publisherPublish (st : RclStatus) :
    Except RclReturnCode Unit × List MsgEvent :=
  (toRclResult st, [.getNativeMessage, .rclPublish, .destroyNativeMessage])

/-- What a destructor does when the native fini operation reports the given
status: return normally, report on a diagnostic channel and return, or make the
destroying thread fail. -/
inductive DropOutcome
  | returned
  | diagnosticReported
  | panicked
deriving DecidableEq, Repr

/-- NodeHandle::drop (node/mod.rs lines 39-44): calls rcl_node_fini and unwraps
the result. Modelled from the spec: ToResult::unwrap of the missing error.rs
makes the thread fail on a non-ok status, as the Panics section of
Context::default documents for the analogous Result unwrap. -/
def nodeHandleDrop (st : RclStatus) : DropOutcome :=
  match toRclResult st with
  | .ok () => .returned
  | .error _ => .panicked

/-- ContextHandle::drop (context.rs lines 31-37): calls rcl_shutdown and discards
its status; nothing is reported and the thread never fails. -/
def contextHandleDrop (_ : RclStatus) : DropOutcome := .returned

/-- PublisherHandle::drop (publisher.rs lines 53-61): calls rcl_publisher_fini and
discards its status; nothing is reported and the thread never fails. -/
def publisherHandleDrop (_ : RclStatus) : DropOutcome := .returned

/-- SubscriptionHandle::drop (subscription.rs lines 54-62): calls
rcl_subscription_fini and discards its status; nothing is reported and the
thread never fails. -/
def subscriptionHandleDrop (_ : RclStatus) : DropOutcome := .returned

/-- The arguments a call to Node::new_with_namespace (node/mod.rs lines 112-142)
hands to the native rcl_node_init: the name and namespace strings are converted
to C strings and passed verbatim; nothing is inserted between the conversion and
the native call. -/
structure NodeInitCall where
  name : String
  ns : String
deriving DecidableEq, Repr

/-- Node::new_with_namespace as far as the namespace argument is concerned: the
node_ns parameter reaches rcl_node_init exactly as given (node/mod.rs lines
117-133). -/
def newWithNamespaceCall (nodeName nodeNs : String) : NodeInitCall :=
  { name := nodeName, ns := nodeNs }

/-- Node::new (node/mod.rs lines 61-63): delegates to new_with_namespace with the
empty namespace. -/
def newCall (nodeName : String) : NodeInitCall :=
  newWithNamespaceCall nodeName ""

/-- Whether a string begins with the separator character. -/
def beginsWithSlash (s : String) : Bool :=
  s.data.head? = some '/'

/-- Follows the spec's words, for comparison with the source: the normalization
the spec says happens before the native node-init call; the empty namespace is
equivalent to "/" and a namespace lacking a leading separator gets one prefixed. -/
def specNormalizeNamespace (ns : String) : String :=
  if ns = "" then "/" else if beginsWithSlash ns then ns else "/" ++ ns

/-- Modelled from the spec: rcl_node_init itself is external middleware code, but
its namespace contract is quoted in the doc comment of new_with_namespace
(node/mod.rs lines 80-83): a namespace lacking a leading forward slash is
automatically changed to one with it, and the empty namespace implicitly becomes
"/". This is the effective namespace of the node the native call creates. -/
def rclNodeInitEffectiveNamespace (ns : String) : String :=
  if ns = "" then "/" else if beginsWithSlash ns then ns else "/" ++ ns

/-- Outcome of the public context constructor. -/
inductive CtxOutcome
  | ok
  | errorReturned (e : RclReturnCode)
  | panicked
deriving DecidableEq, Repr

/-- Context::init (context.rs lines 68-87): calls rcl_init_options_init with its
status discarded, then rcl_init with the ? operator on its mapped result, then
rcl_init_options_fini likewise with ?; returns Ok(()) when both mapped results
are Ok. The two checked native statuses are the parameters. -/
def contextInitModel (stInit stOptsFini : RclStatus) : Except RclReturnCode Unit :=
  match toRclResult stInit with
  | .error e => .error e
  | .ok () => toRclResult stOptsFini

/-- Context::default (context.rs lines 96-104): builds a zero-initialized context
and calls init(args).unwrap(), so an Err from init makes the calling thread fail
(the doc comment says: Panics if Context::init returns an error); no error value
is ever returned to the caller. -/
def contextDefault (stInit stOptsFini : RclStatus) : CtxOutcome :=
  match contextInitModel stInit stOptsFini with
  | .ok () => .ok
  | .error _ => .panicked

/-- Reference-count state of one ContextHandle shared through Arc: how many
strong references exist (the application's Context plus one per live Node, since
the Node struct stores context: Arc of ContextHandle cloned from the creating
Context in node/mod.rs line 139), how many nodes are alive, whether the
application still holds its Context value, and whether ContextHandle::drop has
run (Arc runs it exactly when the strong count reaches zero). -/
structure CtxState where
  ctxStrong : Nat
  liveNodes : Nat
  userRef : Bool
  finalized : Bool
deriving DecidableEq, Repr

/-- The state right after Context::default: one strong reference (the
application's), no nodes, not finalized. -/
def CtxState.start : CtxState :=
  { ctxStrong := 1, liveNodes := 0, userRef := true, finalized := false }

/-- The lifecycle steps the source allows: creating a node through a live
Context clones the Arc (node/mod.rs line 139); dropping the application's
Context or dropping a Node releases one strong reference, and Arc finalizes the
ContextHandle exactly when the count reaches zero. -/
inductive CtxStep : CtxState → CtxState → Prop
  | createNode (s : CtxState) (hu : s.userRef = true) (hf : s.finalized = false) :
      CtxStep s
        { ctxStrong := s.ctxStrong + 1, liveNodes := s.liveNodes + 1,
          userRef := s.userRef, finalized := s.finalized }
  | dropUser (s : CtxState) (hu : s.userRef = true) :
      CtxStep s
        { ctxStrong := s.ctxStrong - 1, liveNodes := s.liveNodes,
          userRef := false, finalized := decide (s.ctxStrong - 1 = 0) }
  | dropNode (s : CtxState) (hn : 0 < s.liveNodes) :
      CtxStep s
        { ctxStrong := s.ctxStrong - 1, liveNodes := s.liveNodes - 1,
          userRef := s.userRef, finalized := decide (s.ctxStrong - 1 = 0) }

/-- States reachable from the state produced by Context::default. -/
inductive CtxReachable : CtxState → Prop
  | start : CtxReachable CtxState.start
  | step (s t : CtxState) : CtxReachable s → CtxStep s t → CtxReachable t

/-- A registry entry for a subscription: either a strong (Arc) or a non-owning
weak (Weak) reference to the subscription with the given identity. -/
inductive SubRef
  | strong (id : Nat)
  | weak (id : Nat)
deriving DecidableEq, Repr

/-- The part of the Node struct the registry claims are about: the subscriptions
vector (node/mod.rs line 55). The field type in the source is Vec of Weak trait
objects; the model keeps the weak/strong tag observable so that weakness is a
provable property rather than a typing accident. -/
structure NodeModel where
  subscriptions : List SubRef
deriving DecidableEq, Repr

/-- A freshly constructed Node has an empty subscriptions vector
(node/mod.rs line 140). -/
def nodeModelNew : NodeModel :=
  { subscriptions := [] }

/-- Node::create_subscription (node/mod.rs lines 157-171): constructs the
subscription (whose native init reports the given status); on error the ?
operator propagates it and the registry is untouched; on success the new Arc is
downgraded and the resulting Weak is pushed onto the subscriptions vector, and
the strong Arc is returned to the caller. -/
def createSubscription (n : NodeModel) (newId : Nat) (st : RclStatus) :
    Except RclReturnCode (NodeModel × SubRef) :=
  match toRclResult st with
  | .error e => .error e
  | .ok () =>
      .ok ({ subscriptions := n.subscriptions ++ [SubRef.weak newId] },
           SubRef.strong newId)

/-- Whether a registry holds only non-owning references. -/
def allWeak (l : List SubRef) : Bool :=
  l.all fun r => match r with
    | .weak _ => true
    | .strong _ => false

/-- qos.rs lines 14-20: the history policy configuration enum. -/
inductive QoSHistoryPolicy
  | systemDefault
  | keepLast
  | keepAll
deriving DecidableEq, Repr

/-- qos.rs lines 6-12: the reliability policy configuration enum. -/
inductive QoSReliabilityPolicy
  | systemDefault
  | reliable
  | bestEffort
deriving DecidableEq, Repr

/-- qos.rs lines 22-28: the durability policy configuration enum. -/
inductive QoSDurabilityPolicy
  | systemDefault
  | transientLocal
  | volatile
deriving DecidableEq, Repr

/-- qos.rs lines 30-36: the QoSProfile configuration struct; depth is an isize. -/
structure QoSProfile where
  history : QoSHistoryPolicy
  depth : Int
  reliability : QoSReliabilityPolicy
  durability : QoSDurabilityPolicy
  avoidRosNamespaceConventions : Bool
deriving DecidableEq, Repr

/-- The native rmw history policy enum. -/
inductive RmwQosHistoryPolicy
  | rmwSystemDefault
  | rmwKeepLast
  | rmwKeepAll
deriving DecidableEq, Repr

/-- The native rmw reliability policy enum. -/
inductive RmwQosReliabilityPolicy
  | rmwSystemDefault
  | rmwReliable
  | rmwBestEffort
deriving DecidableEq, Repr

/-- The native rmw durability policy enum. -/
inductive RmwQosDurabilityPolicy
  | rmwSystemDefault
  | rmwTransientLocal
  | rmwVolatile
deriving DecidableEq, Repr

/-- The native rmw liveliness policy enum (only the system-default variant is
ever produced by qos.rs). -/
inductive RmwQosLivelinessPolicy
  | rmwSystemDefault
deriving DecidableEq, Repr

/-- The native rmw_time_t struct. -/
structure RmwTime where
  sec : Nat
  nsec : Nat
deriving DecidableEq, Repr

/-- The native rmw_qos_profile_t struct; depth is a usize. -/
structure RmwQosProfile where
  history : RmwQosHistoryPolicy
  depth : Nat
  reliability : RmwQosReliabilityPolicy
  durability : RmwQosDurabilityPolicy
  avoidRosNamespaceConventions : Bool
  deadline : RmwTime
  lifespan : RmwTime
  livelinessLeaseDuration : RmwTime
  liveliness : RmwQosLivelinessPolicy
deriving DecidableEq, Repr

/-- Pointer width of the target: isize and usize are 64-bit. -/
def usizeBits : Nat := 64

/-- The Rust cast expression depth as usize (qos.rs line 112): a two's-complement
reinterpretation of the signed value as unsigned, i.e. the value modulo 2 to the
pointer width, with no range check and no error path. -/
def isizeAsUsize (d : Int) : Nat :=
  (d % (2 ^ usizeBits : Int)).toNat

/-- From QoSHistoryPolicy for rmw_qos_history_policy_t (qos.rs lines 124-136). -/
def historyToRmw : QoSHistoryPolicy → RmwQosHistoryPolicy
  | .systemDefault => .rmwSystemDefault
  | .keepLast => .rmwKeepLast
  | .keepAll => .rmwKeepAll

/-- From QoSReliabilityPolicy for rmw_qos_reliability_policy_t
(qos.rs lines 138-152). -/
def reliabilityToRmw : QoSReliabilityPolicy → RmwQosReliabilityPolicy
  | .systemDefault => .rmwSystemDefault
  | .reliable => .rmwReliable
  | .bestEffort => .rmwBestEffort

/-- From QoSDurabilityPolicy for rmw_qos_durability_policy_t
(qos.rs lines 154-168). -/
def durabilityToRmw : QoSDurabilityPolicy → RmwQosDurabilityPolicy
  | .systemDefault => .rmwSystemDefault
  | .transientLocal => .rmwTransientLocal
  | .volatile => .rmwVolatile

/-- From QoSProfile for rmw_qos_profile_t (qos.rs lines 108-122): each
configuration field is converted into the matching native field, depth through
the unchecked cast, and the remaining native fields are filled with fixed
defaults. -/
def qosProfileToRmw (q : QoSProfile) : RmwQosProfile :=
  { history := historyToRmw q.history
    depth := isizeAsUsize q.depth
    reliability := reliabilityToRmw q.reliability
    durability := durabilityToRmw q.durability
    avoidRosNamespaceConventions := q.avoidRosNamespaceConventions
    deadline := { sec := 0, nsec := 0 }
    lifespan := { sec := 0, nsec := 0 }
    livelinessLeaseDuration := { sec := 0, nsec := 0 }
    liveliness := .rmwSystemDefault }

/-- The arguments a call to Publisher::new (publisher.rs lines 103-135) hands to
the native rcl_publisher_init: the topic converted to a C string, and the
default publisher options whose qos field is assigned qos.into()
(publisher.rs lines 113-114). -/
structure PublisherInitCall where
  topic : String
  qos : RmwQosProfile
deriving DecidableEq, Repr

/-- Publisher::new as far as the topic and QoS arguments are concerned: the
whole profile is converted once and stored into the options passed opaquely to
the native init; no part of the call inspects or branches on any QoS value
(publisher.rs lines 112-123). -/
def publisherInitCall (topic : String) (qos : QoSProfile) : PublisherInitCall :=
  { topic := topic, qos := qosProfileToRmw qos }

/-- The arguments a call to Subscription::new (subscription.rs lines 165-203)
hands to the native rcl_subscription_init: the topic converted to a C string,
and the default subscription options whose qos field is assigned qos.into()
(subscription.rs lines 181-182). -/
structure SubscriptionInitCall where
  topic : String
  qos : RmwQosProfile
deriving DecidableEq, Repr

/-- Subscription::new as far as the topic and QoS arguments are concerned: the
whole profile is converted once and stored into the options passed opaquely to
the native init; no part of the call inspects or branches on any QoS value
(subscription.rs lines 180-191). -/
def subscriptionInitCall (topic : String) (qos : QoSProfile) : SubscriptionInitCall :=
  { topic := topic, qos := qosProfileToRmw qos }

end Rclrs

namespace RosidlRs

/-- string.rs lines 100-105: the error returned when a bounded string is
constructed from a source that is too large; len is the checked input length and
upperBound is the bound N. -/
structure StringExceedsBoundsError where
  len : Nat
  upperBound : Nat
deriving DecidableEq, Repr

/-- Rust char::encode_utf16: the UTF-16 code units of one character, one unit
for scalar values below 0x10000 and a surrogate pair otherwise. -/
def encodeCharUtf16 (c : Char) : List Nat :=
  if c.toNat < 0x10000 then [c.toNat]
  else
    [0xD800 + (c.toNat - 0x10000) / 0x400, 0xDC00 + (c.toNat - 0x10000) % 0x400]

/-- Rust str::encode_utf16 collected into a buffer, as WString::from does
(string.rs lines 274-291). -/
def utf16Encode (s : String) : List Nat :=
  s.data.flatMap encodeCharUtf16

/-- TryFrom a str slice for BoundedString with bound n (string.rs lines
345-359): succeeds exactly when s.len(), the UTF-8 byte length, is at most n,
storing the string contents; otherwise StringExceedsBoundsError with that byte
length and the bound. -/
def boundedStringTryFrom (n : Nat) (s : String) :
    Except StringExceedsBoundsError String :=
  if s.utf8ByteSize ≤ n then .ok s
  else .error { len := s.utf8ByteSize, upperBound := n }

/-- TryFrom a str slice for BoundedWString with bound n (string.rs lines
413-427): the guard is the same UTF-8 byte length check on s.len(), but the
stored value is the UTF-16 encoding produced by WString::from. -/
def boundedWStringTryFrom (n : Nat) (s : String) :
    Except StringExceedsBoundsError (List Nat) :=
  if s.utf8ByteSize ≤ n then .ok (utf16Encode s)
  else .error { len := s.utf8ByteSize, upperBound := n }

end RosidlRs

namespace Rclrs

/-- C1 counterexample: on the no-message-available native status, the typed
Subscription::take returns the take-failed condition as an error, not as an
ordinary non-error result, so the distinction the claim asserts is not preserved
through the typed take. -/
theorem c1_counterexample :
    (subscriptionTake RclStatus.subscriptionTakeFailed).1 =
      Except.error
        (RclReturnCode.subscriberError SubscriberErrorCode.subscriptionTakeFailed) := by
  rfl

/-- C1 (amended): the type-erased SubscriptionBase::take returns the empty
outcome as the ordinary non-error result Ok false when the native take reports
no message available, returns Ok true with the decoded message on success,
propagates every other native failure as an error, and never invokes the stored
callback; the typed Subscription::take also never invokes the callback but
propagates the take-failed condition as an error like any other failure. -/
theorem c1_take_distinction (st : RclStatus) :
    (st = RclStatus.subscriptionTakeFailed →
        (subscriptionBaseTake st).1 = Except.ok false) ∧
    (toRclResult st = Except.ok () →
        (subscriptionBaseTake st).1 = Except.ok true) ∧
    (∀ e, toRclResult st = Except.error e →
        e ≠ RclReturnCode.subscriberError SubscriberErrorCode.subscriptionTakeFailed →
        (subscriptionBaseTake st).1 = Except.error e) ∧
    MsgEvent.callbackInvoked ∉ (subscriptionBaseTake st).2 ∧
    (subscriptionTake st).1 = toRclResult st ∧
    MsgEvent.callbackInvoked ∉ (subscriptionTake st).2 := by
  cases st <;>
    simp [subscriptionBaseTake, subscriptionTake, toRclResult]

theorem c1_take_distinction_witness :
    (subscriptionBaseTake RclStatus.subscriptionTakeFailed).1 = Except.ok false ∧
    MsgEvent.callbackInvoked ∉
      (subscriptionBaseTake RclStatus.subscriptionTakeFailed).2 :=
  ⟨(c1_take_distinction RclStatus.subscriptionTakeFailed).1 rfl,
   (c1_take_distinction RclStatus.subscriptionTakeFailed).2.2.2.1⟩

/-- C2 counterexample: when the native node fini reports an unspecified error
during destruction, NodeHandle::drop makes the destroying thread fail instead of
reporting through a diagnostic channel. -/
theorem c2_counterexample :
    nodeHandleDrop RclStatus.error = DropOutcome.panicked := by
  decide

/-- C2 (amended): when the native fini operation reports failure during
destruction, the context, publisher and subscription handle destructors return
normally and silently discard the failure (no panic, no recoverable error, and
no diagnostic report either), while NodeHandle::drop unwraps the fini result
and makes the destroying thread fail on any failure. -/
theorem c2_drop_behavior (st : RclStatus) :
    contextHandleDrop st = DropOutcome.returned ∧
    publisherHandleDrop st = DropOutcome.returned ∧
    subscriptionHandleDrop st = DropOutcome.returned ∧
    (toRclResult st = Except.ok () → nodeHandleDrop st = DropOutcome.returned) ∧
    (∀ e, toRclResult st = Except.error e →
        nodeHandleDrop st = DropOutcome.panicked) := by
  cases st <;>
    simp [contextHandleDrop, publisherHandleDrop, subscriptionHandleDrop,
      nodeHandleDrop, toRclResult]

theorem c2_drop_behavior_witness :
    contextHandleDrop RclStatus.badAlloc = DropOutcome.returned ∧
    nodeHandleDrop RclStatus.badAlloc = DropOutcome.panicked :=
  ⟨(c2_drop_behavior RclStatus.badAlloc).1,
   (c2_drop_behavior RclStatus.badAlloc).2.2.2.2 RclReturnCode.badAlloc rfl⟩

/-- C3: for every outcome of the native publish call, Publisher::publish
releases the message's native representation exactly once before returning, and
the call's mapped result is returned unchanged; the release is unconditional, so
the native representation does not leak on the error path. -/
theorem c3_publish_releases_once (st : RclStatus) :
    (publisherPublish st).2.count MsgEvent.destroyNativeMessage = 1 ∧
    (publisherPublish st).1 = toRclResult st := by
  cases st <;> exact ⟨by decide, rfl⟩

end Rclrs

namespace Rclrs

/-- C4 counterexample: for the namespace argument "foo", the string
Node::new_with_namespace hands to the native rcl_node_init is "foo" itself, not
the spec-normalized "/foo", so no validation or normalization of the namespace
happens before the native node-init call. -/
theorem c4_counterexample :
    (newWithNamespaceCall "n" "foo").ns = "foo" ∧
    specNormalizeNamespace "foo" = "/foo" ∧
    (newWithNamespaceCall "n" "foo").ns ≠ specNormalizeNamespace "foo" := by
  refine ⟨rfl, ?_, ?_⟩ <;> decide

/-- C4 (amended): Node::new_with_namespace passes the namespace argument to the
native rcl_node_init unmodified (and Node::new passes the empty namespace); the
normalization is performed by the native call itself, whose contract, quoted in
the source, makes the effective namespace "/" for the empty input and gives it a
leading separator in every case. -/
theorem c4_namespace_handling (nodeName ns : String) :
    (newWithNamespaceCall nodeName ns).ns = ns ∧
    (newCall nodeName).ns = "" ∧
    rclNodeInitEffectiveNamespace "" = "/" ∧
    beginsWithSlash (rclNodeInitEffectiveNamespace ns) = true := by
  refine ⟨rfl, rfl, rfl, ?_⟩
  unfold rclNodeInitEffectiveNamespace
  split
  · decide
  · split
    · assumption
    · simp [beginsWithSlash, String.data_append]

/-- C5 counterexample: when the native init call reports invalid-argument, the
public constructor Context::default makes the calling thread fail instead of
returning an InitializationError to the caller. -/
theorem c5_counterexample :
    contextDefault RclStatus.invalidArgument RclStatus.ok = CtxOutcome.panicked := by
  decide

/-- C5 (amended): Context::init maps a native invalid-argument,
already-initialized, allocation-failure or unspecified-error report to the
corresponding distinct error result, with no internal retry; but the public
constructor Context::default unwraps that result, so any such failure makes the
constructing thread fail rather than surfacing the error to the caller, and only
a fully successful init yields a context. -/
theorem c5_init_error_mapping (stInit stOptsFini : RclStatus) :
    contextInitModel RclStatus.invalidArgument stOptsFini =
      Except.error RclReturnCode.invalidArgument ∧
    contextInitModel RclStatus.alreadyInit stOptsFini =
      Except.error (RclReturnCode.rclError RclErrorCode.alreadyInit) ∧
    contextInitModel RclStatus.badAlloc stOptsFini =
      Except.error RclReturnCode.badAlloc ∧
    contextInitModel RclStatus.error stOptsFini =
      Except.error (RclReturnCode.rclError RclErrorCode.error) ∧
    (∀ e, contextInitModel stInit stOptsFini = Except.error e →
        contextDefault stInit stOptsFini = CtxOutcome.panicked) ∧
    (contextInitModel stInit stOptsFini = Except.ok () →
        contextDefault stInit stOptsFini = CtxOutcome.ok) := by
  refine ⟨rfl, rfl, rfl, rfl, ?_, ?_⟩
  · intro e he
    simp [contextDefault, he]
  · intro he
    simp [contextDefault, he]

theorem c5_init_error_mapping_witness :
    contextInitModel RclStatus.invalidArgument RclStatus.ok =
      Except.error RclReturnCode.invalidArgument ∧
    contextDefault RclStatus.invalidArgument RclStatus.ok = CtxOutcome.panicked :=
  ⟨(c5_init_error_mapping RclStatus.invalidArgument RclStatus.ok).1,
   (c5_init_error_mapping RclStatus.invalidArgument RclStatus.ok).2.2.2.2.1
     RclReturnCode.invalidArgument rfl⟩

end Rclrs

namespace Rclrs

/-- Every reachable reference-count state satisfies the Arc accounting: the
strong count on the ContextHandle is exactly one per live node plus one for the
application's Context if still held, and the handle is finalized exactly when
that count is zero. -/
theorem ctxReachable_invariant (s : CtxState) (h : CtxReachable s) :
    s.ctxStrong = s.liveNodes + (if s.userRef then 1 else 0) ∧
    s.finalized = decide (s.ctxStrong = 0) := by
  induction h with
  | start => simp [CtxState.start]
  | step s t hs hstep ih =>
      obtain ⟨ih1, ih2⟩ := ih
      cases hstep with
      | createNode hu hf =>
          refine ⟨by simp [hu] at ih1 ⊢; omega, ?_⟩
          simp [hf]
      | dropUser hu =>
          refine ⟨?_, rfl⟩
          simp [hu] at ih1
          simp
          omega
      | dropNode hn =>
          refine ⟨?_, rfl⟩
          rcases hsu : s.userRef with _ | _ <;> simp [hsu] at ih1 ⊢ <;> omega

/-- C6: a context's native resource is never finalized while any node created
from it is still alive: each node holds a strong shared reference to the
ContextHandle, finalization happens only when the strong count reaches zero,
and in every reachable state that count is positive whenever a node is live. -/
theorem c6_context_outlives_nodes (s : CtxState) (h : CtxReachable s)
    (hn : 0 < s.liveNodes) : s.finalized = false := by
  obtain ⟨h1, h2⟩ := ctxReachable_invariant s h
  rw [h2, decide_eq_false_iff_not]
  omega

theorem c6_context_outlives_nodes_witness :
    CtxReachable
      { ctxStrong := 1, liveNodes := 1, userRef := false, finalized := false } ∧
    ({ ctxStrong := 1, liveNodes := 1, userRef := false,
        finalized := false } : CtxState).finalized = false := by
  have h1 : CtxReachable
      { ctxStrong := 2, liveNodes := 1, userRef := true, finalized := false } :=
    CtxReachable.step _ _ CtxReachable.start
      (CtxStep.createNode CtxState.start rfl rfl)
  have h2 : CtxReachable
      { ctxStrong := 1, liveNodes := 1, userRef := false, finalized := false } :=
    CtxReachable.step _ _ h1 (CtxStep.dropUser _ rfl)
  exact ⟨h2, c6_context_outlives_nodes _ h2 (by decide)⟩

/-- C7: every successful create_subscription appends exactly one non-owning
(weak) entry for the new subscription to the node's registry and hands the
strong shared reference back to the caller; a fresh node's registry is empty and
stays all-weak across the operation, so the node never strongly owns a
subscription. -/
theorem c7_registry_weak_append (n : NodeModel) (newId : Nat) (st : RclStatus)
    (m : NodeModel) (r : SubRef)
    (h : createSubscription n newId st = Except.ok (m, r)) :
    m.subscriptions = n.subscriptions ++ [SubRef.weak newId] ∧
    r = SubRef.strong newId ∧
    (allWeak n.subscriptions = true → allWeak m.subscriptions = true) ∧
    allWeak nodeModelNew.subscriptions = true := by
  cases st <;> simp [createSubscription, toRclResult] at h
  obtain ⟨hm, hr⟩ := h
  subst hm hr
  refine ⟨rfl, rfl, ?_, rfl⟩
  intro hw
  simp [allWeak] at hw ⊢
  exact hw

theorem c7_registry_weak_append_witness :
    createSubscription nodeModelNew 0 RclStatus.ok =
      Except.ok ({ subscriptions := [SubRef.weak 0] }, SubRef.strong 0) ∧
    ({ subscriptions := [SubRef.weak 0] } : NodeModel).subscriptions =
      nodeModelNew.subscriptions ++ [SubRef.weak 0] ∧
    allWeak [SubRef.weak 0] = true :=
  ⟨rfl,
   (c7_registry_weak_append nodeModelNew 0 RclStatus.ok _ _ rfl).1,
   (c7_registry_weak_append nodeModelNew 0 RclStatus.ok _ _ rfl).2.2.1 rfl⟩

/-- C8: converting a QoSProfile into the native QoS structure maps every
configuration field into the corresponding native field: each of the three
policy enums is translated variant by variant onto a distinct native variant
(so the translation is one-to-one), depth goes through the unsigned cast, the
namespace-convention-avoidance flag is copied, and the native fields with no
configuration counterpart are fixed defaults independent of the profile.
Moreover no core operation branches on these values: the publisher and
subscription init calls, the only consumers of a profile, store the whole
converted profile into their native options verbatim and leave the topic
argument untouched by it, for every profile. -/
theorem c8_qos_field_mapping (q : QoSProfile) (topic : String) :
    (publisherInitCall topic q).qos = qosProfileToRmw q ∧
    (publisherInitCall topic q).topic = topic ∧
    (subscriptionInitCall topic q).qos = qosProfileToRmw q ∧
    (subscriptionInitCall topic q).topic = topic ∧
    (qosProfileToRmw q).history = historyToRmw q.history ∧
    (qosProfileToRmw q).depth = isizeAsUsize q.depth ∧
    (qosProfileToRmw q).reliability = reliabilityToRmw q.reliability ∧
    (qosProfileToRmw q).durability = durabilityToRmw q.durability ∧
    (qosProfileToRmw q).avoidRosNamespaceConventions =
      q.avoidRosNamespaceConventions ∧
    historyToRmw QoSHistoryPolicy.systemDefault =
      RmwQosHistoryPolicy.rmwSystemDefault ∧
    historyToRmw QoSHistoryPolicy.keepLast = RmwQosHistoryPolicy.rmwKeepLast ∧
    historyToRmw QoSHistoryPolicy.keepAll = RmwQosHistoryPolicy.rmwKeepAll ∧
    reliabilityToRmw QoSReliabilityPolicy.systemDefault =
      RmwQosReliabilityPolicy.rmwSystemDefault ∧
    reliabilityToRmw QoSReliabilityPolicy.reliable =
      RmwQosReliabilityPolicy.rmwReliable ∧
    reliabilityToRmw QoSReliabilityPolicy.bestEffort =
      RmwQosReliabilityPolicy.rmwBestEffort ∧
    durabilityToRmw QoSDurabilityPolicy.systemDefault =
      RmwQosDurabilityPolicy.rmwSystemDefault ∧
    durabilityToRmw QoSDurabilityPolicy.transientLocal =
      RmwQosDurabilityPolicy.rmwTransientLocal ∧
    durabilityToRmw QoSDurabilityPolicy.volatile =
      RmwQosDurabilityPolicy.rmwVolatile ∧
    historyToRmw QoSHistoryPolicy.systemDefault ≠
      historyToRmw QoSHistoryPolicy.keepLast ∧
    historyToRmw QoSHistoryPolicy.systemDefault ≠
      historyToRmw QoSHistoryPolicy.keepAll ∧
    historyToRmw QoSHistoryPolicy.keepLast ≠
      historyToRmw QoSHistoryPolicy.keepAll ∧
    reliabilityToRmw QoSReliabilityPolicy.systemDefault ≠
      reliabilityToRmw QoSReliabilityPolicy.reliable ∧
    reliabilityToRmw QoSReliabilityPolicy.systemDefault ≠
      reliabilityToRmw QoSReliabilityPolicy.bestEffort ∧
    reliabilityToRmw QoSReliabilityPolicy.reliable ≠
      reliabilityToRmw QoSReliabilityPolicy.bestEffort ∧
    durabilityToRmw QoSDurabilityPolicy.systemDefault ≠
      durabilityToRmw QoSDurabilityPolicy.transientLocal ∧
    durabilityToRmw QoSDurabilityPolicy.systemDefault ≠
      durabilityToRmw QoSDurabilityPolicy.volatile ∧
    durabilityToRmw QoSDurabilityPolicy.transientLocal ≠
      durabilityToRmw QoSDurabilityPolicy.volatile ∧
    (qosProfileToRmw q).deadline = { sec := 0, nsec := 0 } ∧
    (qosProfileToRmw q).lifespan = { sec := 0, nsec := 0 } ∧
    (qosProfileToRmw q).livelinessLeaseDuration = { sec := 0, nsec := 0 } ∧
    (qosProfileToRmw q).liveliness = RmwQosLivelinessPolicy.rmwSystemDefault := by
  refine ⟨rfl, rfl, rfl, rfl, rfl, rfl, rfl, rfl, rfl, rfl, rfl, rfl, rfl, rfl,
    rfl, rfl, rfl, rfl,
    by decide, by decide, by decide, by decide, by decide, by decide, by decide,
    by decide, by decide, rfl, rfl, rfl, rfl⟩

/-- C9: converting a profile whose depth is negative performs the unchecked cast
into the unsigned native depth, i.e. reduces the value modulo 2 to the pointer
width with no range check and no error: the native depth is the enormous value
depth plus 2 to the 64, at least 2 to the 63. -/
theorem c9_negative_depth_wraps (d : Int) (hneg : d < 0)
    (hrange : -(2 ^ 63) ≤ d) :
    isizeAsUsize d = (d + 2 ^ 64).toNat ∧
    2 ^ 63 ≤ isizeAsUsize d ∧
    (qosProfileToRmw
      { history := QoSHistoryPolicy.keepLast, depth := d,
        reliability := QoSReliabilityPolicy.reliable,
        durability := QoSDurabilityPolicy.volatile,
        avoidRosNamespaceConventions := false }).depth = (d + 2 ^ 64).toNat := by
  have h64 : (2 : Int) ^ 64 = 18446744073709551616 := by norm_num
  have h63 : (2 : Int) ^ 63 = 9223372036854775808 := by norm_num
  have hmain : isizeAsUsize d = (d + 2 ^ 64).toNat := by
    unfold isizeAsUsize usizeBits
    rw [h64] at *
    omega
  refine ⟨hmain, ?_, hmain⟩
  rw [hmain]
  have hn63 : (2 : Nat) ^ 63 = 9223372036854775808 := by norm_num
  rw [h63] at hrange
  rw [h64, hn63]
  omega

theorem c9_negative_depth_wraps_witness :
    ((-1 : Int) < 0) ∧ (-(2 ^ 63) ≤ (-1 : Int)) ∧
    isizeAsUsize (-1) = ((-1 : Int) + 2 ^ 64).toNat ∧
    2 ^ 63 ≤ isizeAsUsize (-1) := by
  have h := c9_negative_depth_wraps (-1) (by norm_num) (by norm_num)
  exact ⟨by norm_num, by norm_num, h.1, h.2.1⟩

end Rclrs

namespace RosidlRs

/-- C10: for bound n, the bounded string and bounded wide string conversions
from a str slice succeed exactly when the UTF-8 byte length is at most n and
return the bounds error carrying that byte length otherwise; the check counts
bytes rather than characters, so the one-character string with a two-byte
character is rejected at bound 1; and the wide conversion checks the UTF-8 byte
length even though it stores the UTF-16 encoding, as the single-unit storage
accepted only at bound 2 shows. -/
theorem c10_bounded_length_check (n : Nat) (s : String) :
    (s.utf8ByteSize ≤ n →
        boundedStringTryFrom n s = Except.ok s ∧
        boundedWStringTryFrom n s = Except.ok (utf16Encode s)) ∧
    (n < s.utf8ByteSize →
        boundedStringTryFrom n s =
          Except.error { len := s.utf8ByteSize, upperBound := n } ∧
        boundedWStringTryFrom n s =
          Except.error { len := s.utf8ByteSize, upperBound := n }) ∧
    "ö".length = 1 ∧
    boundedStringTryFrom 1 "ö" = Except.error { len := 2, upperBound := 1 } ∧
    boundedWStringTryFrom 2 "ö" = Except.ok [246] := by
  refine ⟨?_, ?_, rfl, rfl, rfl⟩
  · intro h
    constructor <;> simp [boundedStringTryFrom, boundedWStringTryFrom, if_pos h]
  · intro h
    constructor <;>
      simp [boundedStringTryFrom, boundedWStringTryFrom, if_neg (not_le.mpr h)]

theorem c10_bounded_length_check_witness :
    "abc".utf8ByteSize ≤ 3 ∧
    boundedStringTryFrom 3 "abc" = Except.ok "abc" ∧
    boundedWStringTryFrom 3 "abc" = Except.ok (utf16Encode "abc") :=
  ⟨by decide, ((c10_bounded_length_check 3 "abc").1 (by decide)).1,
   ((c10_bounded_length_check 3 "abc").1 (by decide)).2⟩

end RosidlRs
